import Mathlib

/-!
Verification of the LUSTHABEN showcase scene (src/main.js) against its
specification.  The JavaScript source is shallowly embedded: JS numbers are
modelled as exact rationals (numeric literals by their decimal value), objects
of the rendering library's scene graph become the `Obj` structure, the
closures stored on `userData` become explicit invocation functions over the
captured data, promises become `Except`, and the per-frame tick becomes a
pure state transformer `tickObj`.
-/

namespace Lusthaben

/-- Embedding of THREE.Vector3 with rational components. -/
structure Vec3 where
  x : ℚ
  y : ℚ
  z : ℚ
deriving DecidableEq, Repr

/-- THREE.Vector3.setScalar: sets all three components to the same value. -/
def Vec3.setScalar (_v : Vec3) (s : ℚ) : Vec3 := ⟨s, s, s⟩

/-- THREE.Vector3.divideScalar: componentwise division. -/
def Vec3.divideScalar (v : Vec3) (s : ℚ) : Vec3 := ⟨v.x / s, v.y / s, v.z / s⟩

/-- Squared euclidean length of a vector. -/
def Vec3.normSq (v : Vec3) : ℚ := v.x * v.x + v.y * v.y + v.z * v.z

/-- Rational square root, exact on rationals that are squares of rationals
(numerator and denominator perfect squares); this covers every vector length
the program computes (its rotation axes are standard basis vectors). -/
def ratSqrt (q : ℚ) : ℚ := (Nat.sqrt q.num.natAbs : ℚ) / (Nat.sqrt q.den : ℚ)

/-- THREE.Vector3.length. -/
def Vec3.length (v : Vec3) : ℚ := ratSqrt v.normSq

/-- THREE.Vector3.normalize: `divideScalar(length() || 1)` — JS `||` turns a
zero length into the divisor 1, so the zero vector is left unchanged. -/
def Vec3.normalize (v : Vec3) : Vec3 :=
  Vec3.divideScalar v (if v.length = 0 then 1 else v.length)

/-- The scale descriptor handed to makeInteractable:
`{ base, hover, click }`; `click` may be absent (it is joined with `??`). -/
structure ScaleDesc where
  base : ℚ
  hover : ℚ
  click : Option ℚ
deriving DecidableEq, Repr

/-- The rotation descriptor handed to makeInteractable:
`{ axis: [x,y,z], speed }`. -/
structure RotationDesc where
  axis : Vec3
  speed : ℚ
deriving DecidableEq, Repr

/-- Data captured by the three closures makeInteractable stores on
`userData` (`onHoverEnter`, `onHoverExit`, `onClick`): the `scale`
descriptor and the `modalId` argument. -/
structure Callbacks where
  scale : ScaleDesc
  modalId : Option String
deriving DecidableEq, Repr

/-- Embedding of the `userData` record the program attaches to scene nodes. -/
structure UserData where
  interactable : Bool
  scale : Option ScaleDesc
  targetScale : Option ℚ
  rotationAxis : Option Vec3
  rotationSpeed : Option ℚ
  callbacks : Option Callbacks
deriving DecidableEq, Repr

/-- A fresh `userData` (no field set). -/
def UserData.empty : UserData := ⟨false, none, none, none, none, none⟩

/-- Embedding of a scene-graph node.  Orientation is tracked as the initial
`rotation.y` assignment plus the log of `rotateOnAxis` calls (axis, angle);
the claims need only that the tick changes orientation and nothing else, so
no quaternion arithmetic is modelled. -/
structure Obj where
  position : Vec3
  scale : Vec3
  rotationY : ℚ
  appliedRotations : List (Vec3 × ℚ)
  userData : UserData
deriving DecidableEq, Repr

/-- THREE.Object3D.rotateOnAxis: rotates the object about `axis` by `angle`
(logged as an appended axis–angle pair). -/
def Obj.rotateOnAxis (o : Obj) (axis : Vec3) (angle : ℚ) : Obj :=
  { o with appliedRotations := o.appliedRotations ++ [(axis, angle)] }

/-- JS truthiness of an optional string: `undefined` and `""` are falsy. -/
def strTruthy : Option String → Bool
  | none => false
  | some s => s ≠ ""

/-- Constants from main.js lines 18–21. -/
def BASE_SCALE : ℚ := 13/10

def HOVER_SCALE : ℚ := 15/10

def CLICK_SCALE : ℚ := 21/10

def NORMAL_SCALE : ℚ := 2

/-- The default scale descriptor of makeInteractable (line 80). -/
def defaultScaleDesc : ScaleDesc := ⟨BASE_SCALE, HOVER_SCALE, some CLICK_SCALE⟩

/-- makeInteractable (main.js lines 76–110): marks the object interactable,
stores the scale descriptor, sets `targetScale` to `scale.base`, sets the
object scale with `setScalar(scale.base)`, stores the normalized rotation
axis and speed when a rotation descriptor is given, and stores the three
callbacks (modelled by their captured data, see `invokeHoverEnter`,
`invokeHoverExit`, `invokeClick`). -/
def makeInteractable (obj : Obj) (modalId : Option String)
    (scale : ScaleDesc) (rotation : Option RotationDesc) : Obj :=
  let o1 : Obj :=
    { obj with
        userData :=
          { obj.userData with
              interactable := true
              scale := some scale
              targetScale := some scale.base }
        scale := obj.scale.setScalar scale.base }
  let o2 : Obj :=
    match rotation with
    | none => o1
    | some r =>
        { o1 with
            userData :=
              { o1.userData with
                  rotationAxis := some r.axis.normalize
                  rotationSpeed := some r.speed } }
  { o2 with userData := { o2.userData with callbacks := some ⟨scale, modalId⟩ } }

/-- Sets `obj.userData.targetScale`. -/
def setTargetScale (o : Obj) (t : ℚ) : Obj :=
  { o with userData := { o.userData with targetScale := some t } }

/-- Invocation of the stored `onHoverEnter` closure (lines 98–100):
`obj.userData.targetScale = scale.hover`. -/
def invokeHoverEnter (o : Obj) : Obj :=
  match o.userData.callbacks with
  | none => o
  | some cb => setTargetScale o cb.scale.hover

/-- Invocation of the stored `onHoverExit` closure (lines 102–104):
`obj.userData.targetScale = scale.base`. -/
def invokeHoverExit (o : Obj) : Obj :=
  match o.userData.callbacks with
  | none => o
  | some cb => setTargetScale o cb.scale.base

/-- Invocation of the stored `onClick` closure (lines 106–109):
`if (modalId) openModal(obj, modalId); obj.userData.targetScale =
scale.click ?? scale.hover`.  Returns the updated object together with the
list of modal ids opened. -/
def invokeClick (o : Obj) : Obj × List String :=
  match o.userData.callbacks with
  | none => (o, [])
  | some cb =>
      let opened : List String :=
        match cb.modalId with
        | none => []
        | some m => if m ≠ "" then [m] else []
      (setTargetScale o (cb.scale.click.getD cb.scale.hover), opened)

/-- The per-object body of the overridden `manager._tick` (lines 284–296):
when both `rotationAxis` and `rotationSpeed` are present, rotate about the
axis by `rotationSpeed * delta`; when `targetScale` is present, read
`s = scale.x` and apply `scale.setScalar(s + (t - s) * 0.1)`. -/
def tickObj (delta : ℚ) (o : Obj) : Obj :=
  let o1 : Obj :=
    match o.userData.rotationAxis, o.userData.rotationSpeed with
    | some axis, some speed => o.rotateOnAxis axis (speed * delta)
    | _, _ => o
  match o1.userData.targetScale with
  | none => o1
  | some t =>
      let s := o1.scale.x
      { o1 with scale := o1.scale.setScalar (s + (t - s) * (1/10)) }

/-- The scene traversal of `manager._tick`: the tick body applied to every
node of the scene. -/
def tickScene (delta : ℚ) (scene : List Obj) : List Obj :=
  scene.map (tickObj delta)

/-- The scale update performed by the tick (line 292), as a function of the
target and the current scale: `s + (t - s) * 0.1`. -/
def easeStep (t s : ℚ) : ℚ := s + (t - s) * (1/10)

/-- Iterated application of `easeStep` with a fixed target `t` from start
`s0`. -/
def easeIter (t s0 : ℚ) : ℕ → ℚ
  | 0 => s0
  | n + 1 => easeStep t (easeIter t s0 n)

/-- Modelled from the spec: the reference formula the spec gives for the
per-frame scale easing, `scale += (target - scale) * 0.1`. -/
def specScaleFormula (scale target : ℚ) : ℚ := scale + (target - scale) * (1/10)

/-! ## Edge-pan camera control (main.js lines 144–154) -/

/-- `const edgeMargin = 0.05`. -/
def edgeMargin : ℚ := 1/20

/-- `const panSpeed = 0.02`. -/
def panSpeed : ℚ := 1/50

/-- The edge-pan step of the overridden `controls.update` (lines 150–153),
as a function of the normalized mouse X and the camera yaw (the Euler y
component extracted from the quaternion):
`if (mouseX < edgeMargin) euler.y += panSpeed;
 if (mouseX > 1 - edgeMargin) euler.y -= panSpeed`. -/
def edgePanYaw (mouseX yaw : ℚ) : ℚ :=
  let y1 := if mouseX < edgeMargin then yaw + panSpeed else yaw
  if mouseX > 1 - edgeMargin then y1 - panSpeed else y1

/-! ## Model loading (loadModelSafe.js and main.js lines 163–258) -/

/-- The object a GLTF loader callback receives; `loadModelSafe` resolves
with its `scene`. -/
structure GLTF where
  scene : Obj
deriving DecidableEq

/-- A loader is the outcome of `GLTFLoader.load` per path: either the
parsed GLTF or the error passed to the error callback. -/
def Loader : Type := String → Except String GLTF

/-- loadModelSafe (loadModelSafe.js): wraps `loader.load` in a promise that
resolves with `gltf.scene` and rejects with the load error. -/
def loadModelSafe (loader : Loader) (path : String) : Except String Obj :=
  (loader path).map GLTF.scene

/-- The argument record of `loadInteractiveModel` (lines 163–171);
`material` records whether a material override was supplied (the material
itself is rendering state outside this model). -/
structure ModelArgs where
  path : String
  position : Vec3
  modalId : Option String
  scale : ScaleDesc
  rotation : Option RotationDesc
  material : Bool
  yRotation : ℚ
deriving DecidableEq

/-- applyInteractionRecursively (lines 112–120) applies `makeInteractable`
to the root and to every descendant mesh with the same arguments; the
embedding keeps the scene flat, so it is `makeInteractable` on the node. -/
def applyInteractionRecursively (obj : Obj) (modalId : Option String)
    (scale : ScaleDesc) (rotation : Option RotationDesc) : Obj :=
  makeInteractable obj modalId scale rotation

/-- loadInteractiveModel (lines 163–189): awaits `loadModelSafe`, clones the
model, copies position, sets `rotation.y`, `scale.setScalar(scale.base)`,
and applies the interaction helpers.  The `async` function contains no
`try`/`catch`, so a rejection of `loadModelSafe` propagates out as the
rejection of the returned promise (`Except.error`). -/
def loadInteractiveModel (loader : Loader) (args : ModelArgs) :
    Except String Obj :=
  match loadModelSafe loader args.path with
  | .error e => .error e
  | .ok model =>
      let clone : Obj :=
        { model with
            position := args.position
            rotationY := args.yRotation
            scale := model.scale.setScalar args.scale.base }
      .ok (applyInteractionRecursively clone args.modalId args.scale args.rotation)

/-- The exact rational value of the IEEE-754 double `Math.PI`. -/
def mathPI : ℚ := 884279719003555 / 281474976710656

/-- The warehouse load (lines 243–258): `loadModelSafe(path).then(model =>
{ ...; scene.add(clone) }).catch(console.error)`.  The catch handler logs
the error and leaves the scene as it was; no exception escapes.  Returns
the scene and the console-error log. -/
def warehouseLoad (loader : Loader) (scene : List Obj) :
    List Obj × List String :=
  match loadModelSafe loader "./assets/warehouse/warehouse_remeshed.gltf" with
  | .error e => (scene, [e])
  | .ok model =>
      let m1 : Obj := { model with scale := model.scale.setScalar 20 }
      let clone : Obj :=
        { m1 with position := ⟨100, -50, -300⟩, rotationY := mathPI / 2 }
      (scene ++ [clone], [])

/-- A model-load call site of the program and whether it attaches a
rejection handler (`.catch`). -/
structure LoadCallSite where
  path : String
  handlesRejection : Bool
deriving DecidableEq

/-- The five `loadInteractiveModel` configurations of lines 197–240. -/
def pressureArgs : ModelArgs :=
  ⟨"./assets/pressure/pressure.gltf", ⟨10, 20, -70⟩, some "text-1",
   ⟨12/10, 18/10, some 2⟩, some ⟨⟨0, 1, 0⟩, 1/100⟩, true, 0⟩

def handsArgs : ModelArgs :=
  ⟨"./assets/hands/hands.gltf", ⟨-60, 20, -150⟩, some "text-2",
   ⟨15/10, 18/10, some 2⟩, some ⟨⟨0, 1, 0⟩, 5/1000⟩, true, 0⟩

def weirdShapeArgs : ModelArgs :=
  ⟨"./assets/weird_shape/weird_shape2.gltf", ⟨-20, 15, -250⟩, some "text-3",
   ⟨3/10, 33/100, some (36/100)⟩, some ⟨⟨1, 0, 0⟩, 1/100⟩, true, 0⟩

def airArgs : ModelArgs :=
  ⟨"./assets/air/air.gltf", ⟨40, 30, -360⟩, some "text-4",
   ⟨23/10, 25/10, some (28/10)⟩, some ⟨⟨0, 1, 0⟩, 8/100⟩, true, 0⟩

def meltingArgs : ModelArgs :=
  ⟨"./assets/melting/melting_man2.gltf", ⟨-20, 25, -550⟩, some "text-5",
   ⟨28/10, 3, some (35/10)⟩, some ⟨⟨0, 0, 1⟩, 1/100⟩, true, 0⟩

/-- All five interactive-model configurations, in source order. -/
def modelConfigs : List ModelArgs :=
  [pressureArgs, handsArgs, weirdShapeArgs, airArgs, meltingArgs]

/-- Every asynchronous model-load call the program performs, with whether
the call site attaches a `.catch`: the five `loadInteractiveModel(...)`
statements (lines 197–240) are bare calls with no handler on the returned
promise; only the warehouse load (lines 243–258) chains
`.catch(console.error)`. -/
def programLoadCalls : List LoadCallSite :=
  [⟨"./assets/pressure/pressure.gltf", false⟩,
   ⟨"./assets/hands/hands.gltf", false⟩,
   ⟨"./assets/weird_shape/weird_shape2.gltf", false⟩,
   ⟨"./assets/air/air.gltf", false⟩,
   ⟨"./assets/melting/melting_man2.gltf", false⟩,
   ⟨"./assets/warehouse/warehouse_remeshed.gltf", true⟩]

/-! ## Background audio (main.js lines 25–31) -/

/-- State of the background-audio setup: how many times `bgAudio.play()`
has been called, and whether the one-shot window click listener is
currently registered. -/
structure AudioState where
  playAttempts : ℕ
  clickListenerActive : Bool
deriving DecidableEq, Repr

/-- Lines 29–31: `bgAudio.play().catch(() => window.addEventListener(
"click", () => bgAudio.play(), { once: true }))`.  One play attempt is
made; if it is rejected the catch registers the one-shot listener. -/
def audioInit (autoplayAllowed : Bool) : AudioState :=
  if autoplayAllowed then ⟨1, false⟩ else ⟨1, true⟩

/-- A window click: with the `{ once: true }` listener registered,
`bgAudio.play()` is called again and the listener is removed; otherwise
nothing happens. -/
def audioClick (st : AudioState) : AudioState :=
  if st.clickListenerActive then ⟨st.playAttempts + 1, false⟩ else st

/-- The audio state after `n` window clicks. -/
def audioAfterClicks (st : AudioState) : ℕ → AudioState
  | 0 => st
  | n + 1 => audioAfterClicks (audioClick st) n

/-! ## The darkroom sphere (main.js lines 263–278) -/

/-- The sphere of lines 263–278: `targetScale = 1`, interactable, hover
callbacks written by hand (enter sets targetScale to 1.5, exit to 1); its
click navigates away instead of opening a modal, so it stores no
`Callbacks` record. -/
def darkroomSphere : Obj :=
  { position := ⟨-80, 20, -700⟩
    scale := ⟨1, 1, 1⟩
    rotationY := 0
    appliedRotations := []
    userData :=
      { interactable := true
        scale := none
        targetScale := some 1
        rotationAxis := none
        rotationSpeed := none
        callbacks := none } }

/-- A bare scene node on which the helpers can be run. -/
def emptyObj : Obj := ⟨⟨0, 0, 0⟩, ⟨1, 1, 1⟩, 0, [], UserData.empty⟩

/-- A loader whose underlying load fails on every path. -/
def failLoader : Loader := fun _ => .error "load failed"

/-! ## Helper lemmas -/

/-- Field-by-field description of one tick application. -/
lemma tickObj_fields (δ : ℚ) (o : Obj) :
    (tickObj δ o).position = o.position ∧
    (tickObj δ o).rotationY = o.rotationY ∧
    (tickObj δ o).userData = o.userData ∧
    ((tickObj δ o).scale = match o.userData.targetScale with
      | none => o.scale
      | some t => o.scale.setScalar (easeStep t o.scale.x)) ∧
    ((tickObj δ o).appliedRotations =
      match o.userData.rotationAxis, o.userData.rotationSpeed with
      | some a, some sp => o.appliedRotations ++ [(a, sp * δ)]
      | _, _ => o.appliedRotations) := by
  unfold tickObj Obj.rotateOnAxis easeStep
  rcases ha : o.userData.rotationAxis with _ | a <;>
    rcases hs : o.userData.rotationSpeed with _ | sp <;>
      rcases ht : o.userData.targetScale with _ | t <;>
        simp [ha, hs, ht]

/-- Closed form of the easing iteration: the gap to the target shrinks by
the factor 9/10 each step. -/
lemma easeIter_closed (t s0 : ℚ) (n : ℕ) :
    t - easeIter t s0 n = (t - s0) * (9/10) ^ n := by
  induction n with
  | zero => simp [easeIter]
  | succ n ih =>
      have : t - easeIter t s0 (n + 1) = (t - easeIter t s0 n) * (9/10) := by
        simp only [easeIter, easeStep]; ring
      rw [this, ih, pow_succ]; ring

/-- Once the one-shot listener is gone, clicks change nothing. -/
lemma audioAfterClicks_inactive (k : ℕ) (n : ℕ) :
    audioAfterClicks ⟨k, false⟩ n = ⟨k, false⟩ := by
  induction n with
  | zero => rfl
  | succ n ih => simpa [audioAfterClicks, audioClick] using ih

/-! ## Claims -/

/-- Claim C2: in the overridden controls.update, for every normalized mouse
X value, mouseX in [0, 0.05) adds the fixed pan speed 0.02 to the yaw,
mouseX in (0.95, 1] subtracts it, and mouseX in [0.05, 0.95] leaves the yaw
unchanged by the edge-pan step. -/
theorem edgePan_margin_cases (x y : ℚ) :
    (0 ≤ x → x < edgeMargin → edgePanYaw x y = y + panSpeed) ∧
    (1 - edgeMargin < x → x ≤ 1 → edgePanYaw x y = y - panSpeed) ∧
    (edgeMargin ≤ x → x ≤ 1 - edgeMargin → edgePanYaw x y = y) := by
  unfold edgePanYaw edgeMargin panSpeed
  refine ⟨fun h0 h1 => ?_, fun h0 h1 => ?_, fun h0 h1 => ?_⟩ <;>
    split_ifs <;> first | rfl | linarith

/-- Witness for C2 at the concrete mouse positions 0.01, 0.99 and 0.5. -/
theorem edgePan_margin_cases_witness :
    ((0:ℚ) ≤ 1/100 ∧ (1:ℚ)/100 < edgeMargin ∧
      edgePanYaw (1/100) 3 = 3 + panSpeed) ∧
    (1 - edgeMargin < (99:ℚ)/100 ∧ (99:ℚ)/100 ≤ 1 ∧
      edgePanYaw (99/100) 3 = 3 - panSpeed) ∧
    (edgeMargin ≤ (1:ℚ)/2 ∧ (1:ℚ)/2 ≤ 1 - edgeMargin ∧
      edgePanYaw (1/2) 3 = 3) :=
  ⟨⟨by norm_num, by norm_num [edgeMargin],
      (edgePan_margin_cases (1/100) 3).1 (by norm_num) (by norm_num [edgeMargin])⟩,
   ⟨by norm_num [edgeMargin], by norm_num,
      (edgePan_margin_cases (99/100) 3).2.1 (by norm_num [edgeMargin]) (by norm_num)⟩,
   ⟨by norm_num [edgeMargin], by norm_num [edgeMargin],
      (edgePan_margin_cases (1/2) 3).2.2 (by norm_num [edgeMargin])
        (by norm_num [edgeMargin])⟩⟩

/-- Claim C4: the per-frame scale easing applied by the tick to an object
carrying a targetScale computes exactly the new scale of the reference
formula scale + (target - scale) * 0.1, read from scale.x and written to
all three components. -/
theorem tick_scale_eq_spec_formula (δ : ℚ) (o : Obj) (t : ℚ)
    (h : o.userData.targetScale = some t) :
    (tickObj δ o).scale =
      ⟨specScaleFormula o.scale.x t, specScaleFormula o.scale.x t,
        specScaleFormula o.scale.x t⟩ := by
  have hf := (tickObj_fields δ o).2.2.2.1
  rw [h] at hf
  simpa [Vec3.setScalar, easeStep, specScaleFormula] using hf

/-- Witness for C4: one tick on the darkroom sphere, whose targetScale is 1. -/
theorem tick_scale_eq_spec_formula_witness :
    darkroomSphere.userData.targetScale = some 1 ∧
    (tickObj 1 darkroomSphere).scale =
      ⟨specScaleFormula darkroomSphere.scale.x 1,
        specScaleFormula darkroomSphere.scale.x 1,
        specScaleFormula darkroomSphere.scale.x 1⟩ :=
  ⟨rfl, tick_scale_eq_spec_formula 1 darkroomSphere 1 rfl⟩

/-- Claim C7: one tick application mutates only the orientation (the
rotateOnAxis log) and the scale of an object; its position and its entire
userData record — the targetScale, the scale descriptor, the callback
references — are unchanged. -/
theorem tick_touches_only_rotation_and_scale (δ : ℚ) (o : Obj) :
    (tickObj δ o).position = o.position ∧
    (tickObj δ o).userData.targetScale = o.userData.targetScale ∧
    (tickObj δ o).userData.scale = o.userData.scale ∧
    (tickObj δ o).userData.callbacks = o.userData.callbacks ∧
    (tickObj δ o).userData = o.userData ∧
    (tickObj δ o).rotationY = o.rotationY := by
  obtain ⟨hp, hr, hu, -, -⟩ := tickObj_fields δ o
  exact ⟨hp, by rw [hu], by rw [hu], by rw [hu], hu, hr⟩

/-- Claim C1: for the scale-easing update rule s1 = s + (t - s) * 0.1 with
fixed target t, from every start s0 the iterates come within every positive
epsilon of t in finitely many steps and stay there, and the sign of t - s
never flips (no overshoot). -/
theorem scaleEasing_converges_no_overshoot (s0 t : ℚ) :
    (∀ ε : ℚ, 0 < ε → ∃ N : ℕ, ∀ n, N ≤ n → |easeIter t s0 n - t| < ε) ∧
    (0 ≤ t - s0 → ∀ n, 0 ≤ t - easeIter t s0 n) ∧
    (t - s0 ≤ 0 → ∀ n, t - easeIter t s0 n ≤ 0) := by
  refine ⟨?_, ?_, ?_⟩
  · intro ε hε
    obtain ⟨N, hN⟩ :=
      exists_pow_lt_of_lt_one (x := ε / (|t - s0| + 1)) (y := (9/10 : ℚ))
        (div_pos hε (by positivity)) (by norm_num)
    refine ⟨N, fun n hn => ?_⟩
    have habs : (0:ℚ) ≤ |t - s0| := abs_nonneg _
    have h1 : |easeIter t s0 n - t| = |t - s0| * (9/10) ^ n := by
      rw [abs_sub_comm, easeIter_closed, abs_mul,
        abs_of_nonneg (pow_nonneg (show (0:ℚ) ≤ 9/10 by norm_num) n)]
    have h2 : ((9:ℚ)/10) ^ n ≤ (9/10) ^ N :=
      pow_le_pow_of_le_one (by norm_num) (by norm_num) hn
    have h3 : |t - s0| * (9/10) ^ n ≤ (|t - s0| + 1) * (9/10) ^ N := by
      have : |t - s0| * (9/10) ^ n ≤ |t - s0| * (9/10) ^ N :=
        mul_le_mul_of_nonneg_left h2 habs
      nlinarith [pow_nonneg (show (0:ℚ) ≤ 9/10 by norm_num) N]
    have h4 : (|t - s0| + 1) * (9/10) ^ N < ε := by
      have := mul_lt_mul_of_pos_left hN (show (0:ℚ) < |t - s0| + 1 by positivity)
      have hne : |t - s0| + 1 ≠ 0 := by positivity
      calc (|t - s0| + 1) * (9/10) ^ N
          < (|t - s0| + 1) * (ε / (|t - s0| + 1)) := this
        _ = ε := by field_simp
    rw [h1]; linarith
  · intro h n
    rw [easeIter_closed]
    exact mul_nonneg h (by positivity)
  · intro h n
    rw [easeIter_closed]
    exact mul_nonpos_of_nonpos_of_nonneg h (by positivity)

/-- Witness for C1 at s0 = 0, t = 2, epsilon = 1 (and the reversed start
for the nonpositive sign case). -/
theorem scaleEasing_converges_no_overshoot_witness :
    ((0:ℚ) < 1 ∧ ∃ N : ℕ, ∀ n, N ≤ n → |easeIter 2 0 n - 2| < 1) ∧
    ((0:ℚ) ≤ 2 - 0 ∧ 0 ≤ 2 - easeIter 2 0 5) ∧
    ((0:ℚ) - 2 ≤ 0 ∧ 0 - easeIter 0 2 5 ≤ 0) :=
  ⟨⟨by norm_num, (scaleEasing_converges_no_overshoot 0 2).1 1 (by norm_num)⟩,
   ⟨by norm_num, (scaleEasing_converges_no_overshoot 0 2).2.1 (by norm_num) 5⟩,
   ⟨by norm_num, (scaleEasing_converges_no_overshoot 2 0).2.2 (by norm_num) 5⟩⟩

/-- Claim C9: a matching current scale and target scale is a fixed point of
the easing step, and an object freshly set up by makeInteractable (scale =
targetScale = base) keeps exactly the base scale under every number of
ticks, until a pointer event changes its targetScale. -/
theorem base_scale_fixed_point :
    (∀ t : ℚ, easeStep t t = t) ∧
    (∀ (obj : Obj) (modalId : Option String) (scale : ScaleDesc)
        (rotation : Option RotationDesc) (δ : ℚ) (n : ℕ),
      ((tickObj δ)^[n] (makeInteractable obj modalId scale rotation)).scale
        = ⟨scale.base, scale.base, scale.base⟩) := by
  constructor
  · intro t; simp [easeStep]
  · intro obj modalId scale rotation δ n
    suffices h : ∀ (o : Obj) (c : ℚ), o.scale = ⟨c, c, c⟩ →
        o.userData.targetScale = some c →
        ((tickObj δ)^[n] o).scale = ⟨c, c, c⟩ by
      refine h _ scale.base ?_ ?_ <;>
        · unfold makeInteractable Vec3.setScalar
          rcases rotation with _ | r <;> rfl
    clear obj modalId scale rotation
    induction n with
    | zero => intro o c hs ht; simpa using hs
    | succ n ih =>
        intro o c hs ht
        rw [Function.iterate_succ_apply]
        have hf := (tickObj_fields δ o).2.2.2.1
        rw [ht] at hf
        refine ih _ c ?_ ?_
        · rw [hf, hs]
          show Vec3.setScalar _ (easeStep c c) = _
          have : easeStep c c = c := by simp [easeStep]
          rw [this]; rfl
        · rw [((tickObj_fields δ o).2.2.1 : (tickObj δ o).userData = o.userData), ht]

/-- Claim C10: makeInteractable forces a uniform scale via
setScalar(scale.base), and one tick on any object carrying a targetScale
writes a uniform scale via setScalar, whatever the scale was before. -/
theorem uniform_scale_invariant :
    (∀ (obj : Obj) (modalId : Option String) (scale : ScaleDesc)
        (rotation : Option RotationDesc),
      (makeInteractable obj modalId scale rotation).scale.x
          = (makeInteractable obj modalId scale rotation).scale.y ∧
      (makeInteractable obj modalId scale rotation).scale.x
          = (makeInteractable obj modalId scale rotation).scale.z) ∧
    (∀ (δ : ℚ) (o : Obj) (t : ℚ), o.userData.targetScale = some t →
      (tickObj δ o).scale.x = (tickObj δ o).scale.y ∧
      (tickObj δ o).scale.x = (tickObj δ o).scale.z) := by
  constructor
  · intro obj modalId scale rotation
    unfold makeInteractable Vec3.setScalar
    rcases rotation with _ | r <;> exact ⟨rfl, rfl⟩
  · intro δ o t ht
    have hf := (tickObj_fields δ o).2.2.2.1
    rw [ht] at hf
    rw [hf]; exact ⟨rfl, rfl⟩

/-- Witness for C10: the tick half applied to the darkroom sphere (whose
targetScale is 1), plus the makeInteractable half at a concrete call. -/
theorem uniform_scale_invariant_witness :
    darkroomSphere.userData.targetScale = some 1 ∧
    ((tickObj 1 darkroomSphere).scale.x = (tickObj 1 darkroomSphere).scale.y ∧
      (tickObj 1 darkroomSphere).scale.x = (tickObj 1 darkroomSphere).scale.z) :=
  ⟨rfl, (uniform_scale_invariant).2 1 darkroomSphere 1 rfl⟩

/-- Claim C8: if the initial bgAudio.play() is rejected, a one-shot click
listener is registered and playback is attempted exactly once more, on the
first subsequent click; if the initial play() succeeds, no listener is
registered and clicks never retrigger play. -/
theorem audio_autoplay_fallback :
    ((audioInit true).clickListenerActive = false ∧
      ∀ n, (audioAfterClicks (audioInit true) n).playAttempts = 1) ∧
    ((audioInit false).clickListenerActive = true ∧
      ∀ n, 1 ≤ n →
        (audioAfterClicks (audioInit false) n).playAttempts = 2 ∧
        (audioAfterClicks (audioInit false) n).clickListenerActive = false) := by
  refine ⟨⟨rfl, fun n => ?_⟩, rfl, fun n hn => ?_⟩
  · rw [show audioInit true = ⟨1, false⟩ from rfl, audioAfterClicks_inactive]
  · obtain ⟨m, rfl⟩ := Nat.exists_eq_add_of_le hn
    rw [show (1 + m) = m + 1 from Nat.add_comm 1 m,
      show audioInit false = ⟨1, true⟩ from rfl,
      show audioAfterClicks ⟨1, true⟩ (m + 1)
          = audioAfterClicks ⟨2, false⟩ m from rfl,
      audioAfterClicks_inactive]
    exact ⟨rfl, rfl⟩

/-- Witness for C8 at n = 1 click. -/
theorem audio_autoplay_fallback_witness :
    1 ≤ 1 ∧
    (audioAfterClicks (audioInit false) 1).playAttempts = 2 ∧
    (audioAfterClicks (audioInit false) 1).clickListenerActive = false :=
  ⟨le_refl 1, (audio_autoplay_fallback).2.2 1 (le_refl 1)⟩

/-- The callbacks stored by makeInteractable capture the scale descriptor
and the modalId argument. -/
lemma makeInteractable_callbacks (obj : Obj) (modalId : Option String)
    (scale : ScaleDesc) (rotation : Option RotationDesc) :
    (makeInteractable obj modalId scale rotation).userData.callbacks
      = some ⟨scale, modalId⟩ := by
  unfold makeInteractable
  rcases rotation with _ | r <;> rfl

/-- Counterexample to claim C5 as stated: with the supplied modalId "" the
click callback opens no modal, because the source guards with JS
truthiness (`if (modalId)`) and the empty string is falsy. -/
theorem click_empty_modalId_no_modal :
    (some "" : Option String).isSome = true ∧
    (invokeClick (makeInteractable emptyObj (some "") defaultScaleDesc none)).2
      = [] := by
  refine ⟨rfl, ?_⟩
  rw [invokeClick, makeInteractable_callbacks]
  simp

/-- Claim C5 (amended): on an object made interactable with scale
descriptor base/hover/click, hover-enter sets targetScale to hover,
hover-exit back to base, and click sets targetScale to click (falling back
to hover when click is absent) and opens the modal exactly when a
non-empty modalId was supplied. -/
theorem interaction_callbacks_behavior (obj : Obj) (modalId : Option String)
    (scale : ScaleDesc) (rotation : Option RotationDesc) :
    (invokeHoverEnter (makeInteractable obj modalId scale rotation)).userData.targetScale
        = some scale.hover ∧
    (invokeHoverExit (makeInteractable obj modalId scale rotation)).userData.targetScale
        = some scale.base ∧
    (invokeClick (makeInteractable obj modalId scale rotation)).1.userData.targetScale
        = some (scale.click.getD scale.hover) ∧
    ((invokeClick (makeInteractable obj modalId scale rotation)).2 ≠ []
        ↔ strTruthy modalId = true) ∧
    (∀ m : String, modalId = some m → m ≠ "" →
      (invokeClick (makeInteractable obj modalId scale rotation)).2 = [m]) := by
  rw [invokeHoverEnter, invokeHoverExit, invokeClick, makeInteractable_callbacks]
  refine ⟨rfl, rfl, rfl, ?_, ?_⟩
  · rcases modalId with _ | m
    · simp [strTruthy]
    · by_cases hm : m = "" <;> simp [strTruthy, hm]
  · intro m hm hne
    subst hm
    simp [hne]

/-- Witness for C5 (amended) at modalId "text-1". -/
theorem interaction_callbacks_behavior_witness :
    (some "text-1" : Option String) = some "text-1" ∧ "text-1" ≠ "" ∧
    (invokeClick (makeInteractable emptyObj (some "text-1") defaultScaleDesc none)).2
      = ["text-1"] :=
  ⟨rfl, by decide,
    (interaction_callbacks_behavior emptyObj (some "text-1") defaultScaleDesc
      none).2.2.2.2 "text-1" rfl (by decide)⟩

/-- Every rotation axis the program configures normalizes to a unit vector
(all five are standard basis vectors). -/
lemma configs_axes_unit :
    ∀ args ∈ modelConfigs, ∀ r ∈ args.rotation, (r.axis.normalize).normSq = 1 := by
  have h1 : ((⟨0, 1, 0⟩ : Vec3).normalize).normSq = 1 := by
    norm_num [Vec3.normalize, Vec3.normSq, Vec3.length, ratSqrt,
      Vec3.divideScalar, Nat.sqrt_one]
  have h2 : ((⟨1, 0, 0⟩ : Vec3).normalize).normSq = 1 := by
    norm_num [Vec3.normalize, Vec3.normSq, Vec3.length, ratSqrt,
      Vec3.divideScalar, Nat.sqrt_one]
  have h3 : ((⟨0, 0, 1⟩ : Vec3).normalize).normSq = 1 := by
    norm_num [Vec3.normalize, Vec3.normSq, Vec3.length, ratSqrt,
      Vec3.divideScalar, Nat.sqrt_one]
  intro args hargs r hr
  rw [Option.mem_def] at hr
  fin_cases hargs <;> injection hr with h <;> subst h <;>
    first | exact h1 | exact h2 | exact h3

/-- Claim C6: the rotation axis stored by makeInteractable for each
configured model is the normalized axis and has unit length, and the tick
preserves the axis and the speed while rotating about exactly that axis by
rotationSpeed * delta. -/
theorem rotation_axis_unit_and_preserved :
    (∀ args ∈ modelConfigs, ∀ (obj : Obj) (r : RotationDesc),
      args.rotation = some r →
      (makeInteractable obj args.modalId args.scale args.rotation).userData.rotationAxis
          = some r.axis.normalize ∧
      (r.axis.normalize).normSq = 1) ∧
    (∀ (δ : ℚ) (o : Obj),
      (tickObj δ o).userData.rotationAxis = o.userData.rotationAxis ∧
      (tickObj δ o).userData.rotationSpeed = o.userData.rotationSpeed ∧
      ∀ a sp, o.userData.rotationAxis = some a →
        o.userData.rotationSpeed = some sp →
        (tickObj δ o).appliedRotations = o.appliedRotations ++ [(a, sp * δ)]) := by
  constructor
  · intro args hargs obj r hr
    constructor
    · rw [hr]
      unfold makeInteractable
      rfl
    · exact configs_axes_unit args hargs r (Option.mem_def.mpr hr)
  · intro δ o
    obtain ⟨-, -, hu, -, hrot⟩ := tickObj_fields δ o
    refine ⟨by rw [hu], by rw [hu], fun a sp ha hs => ?_⟩
    rw [hrot, ha, hs]

/-- A concrete interactable object with the pressure model's rotation. -/
def rotWitnessObj : Obj :=
  makeInteractable emptyObj (some "text-1") pressureArgs.scale pressureArgs.rotation

/-- Witness for C6 at the pressure configuration and one tick with delta 2. -/
theorem rotation_axis_unit_and_preserved_witness :
    (pressureArgs ∈ modelConfigs ∧
      pressureArgs.rotation = some ⟨⟨0, 1, 0⟩, 1/100⟩) ∧
    ((makeInteractable emptyObj pressureArgs.modalId pressureArgs.scale
        pressureArgs.rotation).userData.rotationAxis
          = some ((⟨⟨0, 1, 0⟩, 1/100⟩ : RotationDesc).axis.normalize) ∧
      ((⟨⟨0, 1, 0⟩, 1/100⟩ : RotationDesc).axis.normalize).normSq = 1) ∧
    (rotWitnessObj.userData.rotationAxis = some (Vec3.normalize ⟨0, 1, 0⟩) ∧
      rotWitnessObj.userData.rotationSpeed = some (1/100) ∧
      (tickObj 2 rotWitnessObj).appliedRotations
        = rotWitnessObj.appliedRotations ++ [(Vec3.normalize ⟨0, 1, 0⟩, (1/100 : ℚ) * 2)]) :=
  ⟨⟨by unfold modelConfigs; exact List.mem_cons_self _ _, rfl⟩,
   (rotation_axis_unit_and_preserved).1 pressureArgs
     (by unfold modelConfigs; exact List.mem_cons_self _ _) emptyObj
     ⟨⟨0, 1, 0⟩, 1/100⟩ rfl,
   rfl,
   rfl,
   (rotation_axis_unit_and_preserved).2 2 rotWitnessObj |>.2.2
     (Vec3.normalize ⟨0, 1, 0⟩) (1/100) rfl rfl⟩

/-- Counterexample to claim C3 as stated: not every model-load call site
catches a rejection — the pressure loadInteractiveModel call (and the four
like it) attaches no handler, and a failing load makes
loadInteractiveModel itself reject. -/
theorem modelLoad_catch_counterexample :
    ¬ (∀ c ∈ programLoadCalls, c.handlesRejection = true) ∧
    loadInteractiveModel failLoader pressureArgs = .error "load failed" := by
  exact ⟨by decide, rfl⟩

/-- Claim C3 (amended): only the warehouse load catches and logs its
failure (leaving the scene unchanged); a loadModelSafe rejection inside
loadInteractiveModel propagates out of the async function, and its call
sites attach no handler. -/
theorem modelLoad_warehouse_only_caught :
    (∀ c ∈ programLoadCalls,
      c.handlesRejection = (c.path == "./assets/warehouse/warehouse_remeshed.gltf")) ∧
    (∀ (loader : Loader) (args : ModelArgs) (e : String),
      loadModelSafe loader args.path = .error e →
      loadInteractiveModel loader args = .error e) ∧
    (∀ (loader : Loader) (scene : List Obj) (e : String),
      loadModelSafe loader "./assets/warehouse/warehouse_remeshed.gltf" = .error e →
      warehouseLoad loader scene = (scene, [e])) := by
  refine ⟨by decide, ?_, ?_⟩
  · intro loader args e h
    unfold loadInteractiveModel
    rw [h]
  · intro loader scene e h
    unfold warehouseLoad
    rw [h]

/-- Witness for C3 (amended) with the failing loader. -/
theorem modelLoad_warehouse_only_caught_witness :
    loadModelSafe failLoader pressureArgs.path = .error "load failed" ∧
    loadInteractiveModel failLoader pressureArgs = .error "load failed" ∧
    warehouseLoad failLoader [] = ([], ["load failed"]) :=
  ⟨rfl,
   (modelLoad_warehouse_only_caught).2.1 failLoader pressureArgs "load failed" rfl,
   (modelLoad_warehouse_only_caught).2.2 failLoader [] "load failed" rfl⟩

end Lusthaben
